import Mathlib

/-!
Shallow embedding of the subprocess protocol engine of claude-agent-sdk-go:
the reader/dispatcher loop, inbound control-request handling, control-response
correlation, the shutdown coordinator, and the single-turn drain, translated
from claude/process.go and from the stream/session code quoted in the
repository README.

JSON decoding is not re-implemented: a line read from the child is modelled
together with the decode results that the Go code computes from it
(json.Unmarshal outcomes appear as Option-valued fields), and the dispatch
logic itself is the translation target.
-/

/-- Stand-in for an opaque JSON value. Go json.RawMessage and map[string]any
payloads are carried verbatim and never inspected by the code under
verification, so their internal structure is irrelevant. -/
abbrev JSONValue := String

/-- MessageType is the discriminant field present on every message. -/
abbrev MessageType := String

def TypeAssistant : MessageType := "assistant"

def TypeStreamEvent : MessageType := "stream_event"

def TypeResult : MessageType := "result"

def TypeSystem : MessageType := "system"

def TypeRateLimitEvent : MessageType := "rate_limit_event"

/-- HookEvent identifies the lifecycle event that triggered a hook callback. -/
abbrev HookEvent := String

/-- ContentBlock is one element of an assistant message's content array. -/
structure ContentBlock where
  type : String
  text : String := ""
  thinking : String := ""
  deriving DecidableEq, Repr

/-- MessagePayload is the inner message object inside AssistantMessage. -/
structure MessagePayload where
  role : String := ""
  content : List ContentBlock := []
  deriving DecidableEq, Repr

/-- AssistantMessage is emitted when the agent produces a complete response turn. -/
structure AssistantMessage where
  type : MessageType := TypeAssistant
  message : MessagePayload := {}
  parent_tool_use_id : Option String := none
  session_id : String := ""
  uuid : String := ""
  deriving DecidableEq, Repr

/-- StreamEventDelta is the incremental content of a stream_event delta. -/
structure StreamEventDelta where
  type : String
  text : String := ""
  thinking : String := ""
  deriving DecidableEq, Repr

/-- StreamEvent is the inner event object of a StreamEventMessage. -/
structure StreamEvent where
  type : String := ""
  delta : Option StreamEventDelta := none
  index : Int := 0
  deriving DecidableEq, Repr

/-- StreamEventMessage carries incremental deltas during a streaming response. -/
structure StreamEventMessage where
  type : MessageType := TypeStreamEvent
  event : StreamEvent := {}
  parent_tool_use_id : Option String := none
  session_id : String := ""
  uuid : String := ""
  deriving DecidableEq, Repr

/-- Usage holds token and cache counters from a completed agent run. -/
structure Usage where
  input_tokens : Int := 0
  output_tokens : Int := 0
  cache_read_input_tokens : Int := 0
  cache_creation_input_tokens : Int := 0
  deriving DecidableEq, Repr

/-- Result is the final message emitted by the agent (SDKResultSuccess or
SDKResultError). The Go field TotalCostUSD is a float64 that no verified code
path inspects; it is carried opaquely as a JSONValue. -/
structure Result where
  type : MessageType := TypeResult
  subtype : String := ""
  duration_ms : Int := 0
  duration_api_ms : Int := 0
  is_error : Bool := false
  num_turns : Int := 0
  result : String := ""
  stop_reason : Option String := none
  total_cost_usd : JSONValue := ""
  usage : Usage := {}
  session_id : String := ""
  uuid : String := ""
  errors : List String := []
  structured_output : Option JSONValue := none
  permission_denials : List String := []
  deriving DecidableEq, Repr

/-- SystemMessage covers all "system" typed messages from the CLI. -/
structure SystemMessage where
  type : MessageType := TypeSystem
  subtype : String := ""
  status : String := ""
  message : String := ""
  session_id : String := ""
  cwd : String := ""
  model : String := ""
  tools : List String := []
  permissionMode : String := ""
  claude_code_version : String := ""
  apiKeySource : String := ""
  agents : List String := []
  betas : List String := []
  skills : List String := []
  plugins : List String := []
  slash_commands : List String := []
  deriving DecidableEq, Repr

/-- Event is the top-level value delivered on the consumer channel. Type is
always set; the typed field matching Type is populated on a best-effort basis. -/
structure Event where
  type : MessageType
  assistant : Option AssistantMessage := none
  streamEvent : Option StreamEventMessage := none
  result : Option Result := none
  system : Option SystemMessage := none
  raw : JSONValue := ""
  deriving DecidableEq, Repr

/-- PermissionRuleValue is a single permission rule: a tool plus an optional
content pattern. -/
structure PermissionRuleValue where
  toolName : String
  ruleContent : Option String := none
  deriving DecidableEq, Repr

/-- PermissionUpdate is a single permission mutation returned by a
PermissionHandler; Type is the discriminant. -/
structure PermissionUpdate where
  type : String := ""
  rules : List PermissionRuleValue := []
  behavior : String := ""
  destination : String := ""
  mode : String := ""
  directories : List String := []
  deriving DecidableEq, Repr

/-- PermissionContext is passed to a PermissionHandler with full context about
the tool call request. -/
structure PermissionContext where
  suggestions : List PermissionUpdate := []
  blockedPath : String := ""
  decisionReason : String := ""
  toolUseID : String := ""
  agentID : String := ""
  deriving DecidableEq, Repr

/-- PermissionResult is the return value of a PermissionHandler. Behavior is
"allow" (default when empty) or "deny"; UpdatedInput is nil (none) or a
replacement tool input. -/
structure PermissionResult where
  behavior : String := ""
  updatedInput : Option JSONValue := none
  updatedPermissions : List PermissionUpdate := []
  message : String := ""
  interrupt : Bool := false
  deriving DecidableEq, Repr

/-- PermissionHandler is called on a can_use_tool control_request; it receives
the tool name, the raw input (none models a nil json.RawMessage) and the
request context. -/
abbrev PermissionHandler := String → Option JSONValue → PermissionContext → PermissionResult

/-- HookOutput is the structured return value of a hook callback; every field
is optional on the wire. -/
structure HookOutput where
  continueFlag : Option Bool := none
  suppressOutput : Bool := false
  stopReason : String := ""
  decision : String := ""
  systemMessage : String := ""
  reason : String := ""
  hookSpecificOutput : Option JSONValue := none
  deriving DecidableEq, Repr

/-- HookFunc is the signature of a hook callback: lifecycle event, raw input
payload and tool-use id, returning an optional structured output and an
optional error message (the Go (*HookOutput, error) pair). -/
abbrev HookFunc := HookEvent → Option JSONValue → String → Option HookOutput × Option String

/-- hookRegistry maps callback IDs (assigned at init time) to hook callbacks;
it is immutable for the life of the session. -/
abbrev hookRegistry := String → Option HookFunc

/-- Options carries the caller configuration consulted by the dispatcher; the
only field the dispatcher reads is the optional permission handler. -/
structure Options where
  permissionHandler : Option PermissionHandler := none

/-- CtrlRequest is the decoded envelope of an inbound control_request line, as
produced by the json.Unmarshal call at the top of handleControlRequest. -/
structure CtrlRequest where
  request_id : String := ""
  subtype : String := ""
  tool_name : String := ""
  tool_use_id : String := ""
  input : Option JSONValue := none
  permission_suggestions : List PermissionUpdate := []
  blocked_path : String := ""
  decision_reason : String := ""
  agent_id : String := ""
  callback_id : String := ""
  hook_event : HookEvent := ""
  model : String := ""
  permission_mode : String := ""
  max_thinking_tokens : Int := 0
  deriving DecidableEq, Repr

/-- CtrlRespEnv is the decoded envelope of an inbound control_response line,
as produced by the json.Unmarshal call in routeControlResponse. -/
structure CtrlRespEnv where
  request_id : String := ""
  subtype : String := ""
  error : String := ""
  deriving DecidableEq, Repr

/-- JsonMsg models one valid-JSON line from the child together with the decode
results the Go code would compute from it: the type discriminant (typeCheck),
the control envelopes (none models an unmarshal failure of the corresponding
envelope struct) and the best-effort typed payload decodes used by parseLine. -/
structure JsonMsg where
  type : MessageType
  controlRequest : Option CtrlRequest := none
  controlResponseEnv : Option CtrlRespEnv := none
  assistant : Option AssistantMessage := none
  streamEvent : Option StreamEventMessage := none
  result : Option Result := none
  system : Option SystemMessage := none
  raw : JSONValue := ""
  deriving DecidableEq, Repr

/-- ChildLine is one line read from the child's stdout: empty, not valid JSON
(the typeCheck unmarshal fails), or a JSON message. -/
inductive ChildLine where
  | empty
  | nonJSON (raw : String)
  | json (m : JsonMsg)
  deriving DecidableEq, Repr

/-- parseLine decodes one JSON line into an Event: Type and Raw are always
set, and the payload field matching the type is filled from the best-effort
decode. Unknown types keep only Type and Raw. -/
def parseLine (m : JsonMsg) : Event :=
  let event : Event := { type := m.type, raw := m.raw }
  if m.type = TypeAssistant then { event with assistant := m.assistant }
  else if m.type = TypeStreamEvent then { event with streamEvent := m.streamEvent }
  else if m.type = TypeResult then { event with result := m.result }
  else if m.type = TypeSystem then { event with system := m.system }
  else event

/-- errorEvent builds a synthetic TypeSystem/error event for process-level
failures. -/
def errorEvent (msg : String) : Event :=
  { type := TypeSystem,
    system := some { type := TypeSystem, subtype := "error", message := msg } }

/-- CanUseToolResponse is the response payload built for a can_use_tool
control_request; an Option field models presence of the corresponding key in
the Go map literal (the key is only set under the matching condition). -/
structure CanUseToolResponse where
  allowed : Bool
  toolUseID : String
  updatedInput : Option JSONValue := none
  updatedPermissions : Option (List PermissionUpdate) := none
  message : Option String := none
  interrupt : Option Bool := none
  deriving DecidableEq, Repr

/-- RespPayload is the inner response object of an outgoing control_response. -/
inductive RespPayload where
  | canUseTool (r : CanUseToolResponse)
  | hookOutput (o : HookOutput)
  deriving DecidableEq, Repr

/-- ControlResponseOut is one control_response message written to the child's
stdin: its subtype ("success" or "error"), the echoed request_id, an optional
response payload and an optional error message. -/
structure ControlResponseOut where
  subtype : String
  request_id : String
  response : Option RespPayload := none
  error : Option String := none
  deriving DecidableEq, Repr

/-- handleControlRequest services one inbound control_request line and returns
the control_response messages it writes to stdin (in order). The argument is
the decoded envelope; none models a failing json.Unmarshal, for which the Go
function returns without writing anything. -/
def handleControlRequest (env : Option CtrlRequest) (opts : Options)
    (hookReg : hookRegistry) : List ControlResponseOut :=
  match env with
  | none => []
  | some req =>
    if req.subtype = "can_use_tool" then
      let result : PermissionResult :=
        match opts.permissionHandler with
        | none => { behavior := "allow" }
        | some handler =>
          handler req.tool_name req.input
            { suggestions := req.permission_suggestions,
              blockedPath := req.blocked_path,
              decisionReason := req.decision_reason,
              toolUseID := req.tool_use_id,
              agentID := req.agent_id }
      let allowed := result.behavior != "deny"
      [{ subtype := "success",
         request_id := req.request_id,
         response := some (RespPayload.canUseTool
           { allowed := allowed,
             toolUseID := req.tool_use_id,
             updatedInput := result.updatedInput,
             updatedPermissions :=
               if 0 < result.updatedPermissions.length then
                 some result.updatedPermissions
               else none,
             message := if result.message = "" then none else some result.message,
             interrupt := if result.interrupt then some true else none }) }]
    else if req.subtype = "hook_callback" then
      match hookReg req.callback_id with
      | some fn =>
        match fn req.hook_event req.input req.tool_use_id with
        | (_, some errMsg) =>
          [{ subtype := "error",
             request_id := req.request_id,
             error := some errMsg }]
        | (output, none) =>
          [{ subtype := "success",
             request_id := req.request_id,
             response := output.map RespPayload.hookOutput }]
      | none =>
        [{ subtype := "success", request_id := req.request_id }]
    else
      [{ subtype := "success", request_id := req.request_id }]

/-- canUseToolPayload extracts the can_use_tool response payload from the list
of messages handleControlRequest wrote, when it is a single such message. -/
def canUseToolPayload (ws : List ControlResponseOut) : Option CanUseToolResponse :=
  match ws with
  | [w] =>
    match w.response with
    | some (RespPayload.canUseTool r) => some r
    | _ => none
  | _ => none

/-- LoopOut is the observable outcome of the reader loop: the control
responses written to stdin, the events delivered on the consumer channel (in
order) and the gotResult flag at loop exit. -/
structure LoopOut where
  writes : List ControlResponseOut
  events : List Event
  gotResult : Bool
  deriving DecidableEq, Repr

/-- readLoop models the scanner loop of the reader goroutine in
spawnAndStream: empty and non-JSON lines are skipped; control_request lines
are serviced by handleControlRequest and never forwarded; control_response
lines are routed to the pending table (modelled separately, they touch neither
the writes nor the events); every other line becomes an event delivered in
arrival order, and the loop stops right after delivering the first event of
type result. Context cancellation is not modelled: deliveries succeed. -/
def readLoop (opts : Options) (hookReg : hookRegistry) : List ChildLine → LoopOut
  | [] => { writes := [], events := [], gotResult := false }
  | ChildLine.empty :: ls => readLoop opts hookReg ls
  | ChildLine.nonJSON _ :: ls => readLoop opts hookReg ls
  | ChildLine.json m :: ls =>
    if m.type = "control_request" then
      let rest := readLoop opts hookReg ls
      { rest with writes := handleControlRequest m.controlRequest opts hookReg ++ rest.writes }
    else if m.type = "control_response" then
      readLoop opts hookReg ls
    else
      let event := parseLine m
      if event.type = TypeResult then
        { writes := [], events := [event], gotResult := true }
      else
        let rest := readLoop opts hookReg ls
        { rest with events := event :: rest.events }

/-- ProcOutcome collects what the reader goroutine observes after the scanner
loop ends: the scanner error, the cmd.Wait() error text (some exactly when the
process exited abnormally) and the captured stderr buffer. -/
structure ProcOutcome where
  scanErr : Option String := none
  exitErr : Option String := none
  stderrBuf : String := ""
  deriving DecidableEq, Repr

/-- streamEvents is the full content of the consumer event channel for one
session, in order: the events delivered by the loop, then a synthetic event
for a scanner read error, then — when the process exited abnormally and no
result was seen — one synthetic error event carrying the trimmed stderr (or
the exit error text when stderr trims to empty). The channel is closed right
after the last listed event. -/
def streamEvents (opts : Options) (hookReg : hookRegistry) (lines : List ChildLine)
    (po : ProcOutcome) : List Event :=
  let lo := readLoop opts hookReg lines
  lo.events
    ++ (match po.scanErr with
        | some e => [errorEvent ("stdout read error: " ++ e)]
        | none => [])
    ++ (match po.exitErr with
        | some errText =>
          if lo.gotResult then []
          else
            let stderr := po.stderrBuf.trim
            [errorEvent (if stderr = "" then errText else stderr)]
        | none => [])

/-- controlResponse is the value used internally to correlate responses to
Stream control requests (Go struct controlResponse). -/
structure controlResponse where
  success : Bool
  error : String
  deriving DecidableEq, Repr

/-- ReplySlot models the reply channel make(chan controlResponse, 1): a
buffer of capacity one, none when empty. -/
abbrev ReplySlot := Option controlResponse

/-- Pending models the Go map s.pending from request_id to reply channel;
the entry carries the current buffer content of its channel. -/
abbrev Pending := String → Option ReplySlot

/-- registerPending models the map assignment s.pending[reqID] = respCh in
sendControlRequest: an unconditional insert. -/
def registerPending (p : Pending) (id : String) (slot : ReplySlot) : Pending :=
  fun k => if k = id then some slot else p k

/-- removePending models delete(s.pending, reqID). -/
def removePending (p : Pending) (id : String) : Pending :=
  fun k => if k = id then none else p k

/-- RouteEffect describes what routeControlResponse did with one
control_response line. -/
inductive RouteEffect where
  | skippedParse
  | skippedEmptyID
  | discarded
  | sent (id : String) (v : controlResponse)
  | droppedFull (id : String)
  deriving DecidableEq, Repr

/-- routeControlResponse routes one inbound control_response to the waiting
caller: a failed envelope decode or an empty request_id is skipped; a missing
entry is discarded; otherwise the entry is removed and the outcome value is
sent into the reply slot through a select with a default branch — buffered
when the slot has space, dropped otherwise, never blocking the dispatcher. -/
def routeControlResponse (env : Option CtrlRespEnv) (p : Pending) : Pending × RouteEffect :=
  match env with
  | none => (p, RouteEffect.skippedParse)
  | some e =>
    if e.request_id = "" then (p, RouteEffect.skippedEmptyID)
    else
      match p e.request_id with
      | none => (p, RouteEffect.discarded)
      | some slot =>
        let p' := removePending p e.request_id
        match slot with
        | none => (p', RouteEffect.sent e.request_id
            { success := e.subtype != "error", error := e.error })
        | some _ => (p', RouteEffect.droppedFull e.request_id)

/-- WaitResult is the outcome the blocked caller in sendControlRequest
observes first: a value read from its reply slot, or the governing context's
cancellation. -/
inductive WaitResult where
  | response (v : controlResponse)
  | ctxDone (ctxErr : String)

/-- sendControlRequest models the caller side of an outbound control request:
register a fresh (empty) reply slot under reqID, write the request (writeErr
is the write's error, if any), then block. On a write error or on context
cancellation the caller itself deletes its entry and returns an error; when a
response value arrives the entry was already removed by routeControlResponse
on the dispatcher side, and the caller performs no further table operation.
The returned Pending reflects only the caller's own table operations. -/
def sendControlRequest (subtype : String) (p : Pending) (reqID : String)
    (writeErr : Option String) (wait : WaitResult) : Pending × Except String Unit :=
  let p1 := registerPending p reqID none
  match writeErr with
  | some e =>
    (removePending p1 reqID, Except.error ("claude: " ++ subtype ++ ": " ++ e))
  | none =>
    match wait with
    | WaitResult.response v =>
      (p1, if v.success then Except.ok ()
           else Except.error ("claude: " ++ subtype ++ ": " ++ v.error))
    | WaitResult.ctxDone ctxErr =>
      (removePending p1 reqID, Except.error ctxErr)

/-- FirstSelect is the branch that wins the first select of the shutdown
goroutine: context cancellation, the interrupt channel, or reader-goroutine
completion (procDone). -/
inductive FirstSelect where
  | ctxDone
  | interruptCh
  | procDone
  deriving DecidableEq, Repr

/-- SecondSelect is the branch that wins the race between the 5-second timer
and process exit after SIGTERM was sent. -/
inductive SecondSelect where
  | timeoutAfter5s
  | procDone
  deriving DecidableEq, Repr

/-- ShutdownAction is one observable step of the shutdown goroutine. -/
inductive ShutdownAction where
  | closeStdin
  | sigterm
  | sigkill
  deriving DecidableEq, Repr

/-- shutdownGoroutine is the body of the graceful-shutdown goroutine in
spawnAndStream, as a function of which branch wins each select: when procDone
wins the first select the goroutine returns at once with no action; otherwise
it closes stdin, sends SIGTERM, and sends SIGKILL exactly when the 5-second
timer beats process exit. -/
def shutdownGoroutine : FirstSelect → SecondSelect → List ShutdownAction
  | FirstSelect.procDone, _ => []
  | _, SecondSelect.timeoutAfter5s =>
    [ShutdownAction.closeStdin, ShutdownAction.sigterm, ShutdownAction.sigkill]
  | _, SecondSelect.procDone =>
    [ShutdownAction.closeStdin, ShutdownAction.sigterm]

/-- interruptOnceRuns models the sync.Once guard interruptOnce: over any
number of calls to the interrupt trigger, the guarded body (closing
interruptCh) runs at most once. -/
def interruptOnceRuns (calls : Nat) : Nat :=
  min calls 1

/-- RunOutcome is the result of the single-turn Run call: the final Result, a
Go error, or the nil-pointer dereference Run would hit on a result-typed event
whose Result payload failed to decode. -/
inductive RunOutcome where
  | ok (r : Result)
  | err (msg : String)
  | panicNilResult
  deriving DecidableEq, Repr

/-- Run models the drain loop of the single-turn call over the content of the
event channel: result-typed events end the loop (error results and decode
failures are turned into errors), synthesized system error events are
surfaced as errors, every other event is discarded, and exhausting the
channel without a result yields a constructed error. -/
def Run : List Event → RunOutcome
  | [] => RunOutcome.err "claude: agent finished without a result message"
  | e :: es =>
    if e.type = TypeResult then
      match e.result with
      | none => RunOutcome.panicNilResult
      | some r =>
        if r.is_error then
          let msg := if 0 < r.errors.length then String.intercalate "; " r.errors
                     else r.subtype
          RunOutcome.err ("claude: agent error (" ++ r.subtype ++ "): " ++ msg)
        else RunOutcome.ok r
    else if e.type = TypeSystem then
      match e.system with
      | some sm =>
        if sm.subtype = "error" then RunOutcome.err ("claude: " ++ sm.message)
        else Run es
      | none => Run es
    else Run es

/-- domainParse is the spec-side classification from the claims: a line
parses as a domain event exactly when it is valid JSON and its discriminant is
neither control_request nor control_response; the event is its parseLine
decode. -/
def domainParse : ChildLine → Option Event
  | ChildLine.json m =>
    if m.type = "control_request" ∨ m.type = "control_response" then none
    else some (parseLine m)
  | _ => none

/-- specDomainEvents is the spec-side description of the delivered stream:
the subsequence of lines that parse as domain events, in emission order. -/
def specDomainEvents (lines : List ChildLine) : List Event :=
  lines.filterMap domainParse

/-- eventsUpToFirstResult truncates an event sequence right after its first
event of type result. -/
def eventsUpToFirstResult : List Event → List Event
  | [] => []
  | e :: es => if e.type = TypeResult then [e] else e :: eventsUpToFirstResult es

lemma parseLine_type (m : JsonMsg) : (parseLine m).type = m.type := by
  unfold parseLine
  repeat' split
  all_goals rfl

lemma handleControlRequest_shape (req : CtrlRequest) (opts : Options) (reg : hookRegistry) :
    (handleControlRequest (some req) opts reg).length = 1 ∧
    ∀ w ∈ handleControlRequest (some req) opts reg, w.request_id = req.request_id := by
  by_cases h1 : req.subtype = "can_use_tool"
  · simp [handleControlRequest, h1]
  · by_cases h2 : req.subtype = "hook_callback"
    · cases hreg : reg req.callback_id with
      | none => simp [handleControlRequest, h1, h2, hreg]
      | some fn =>
        rcases hfn : fn req.hook_event req.input req.tool_use_id with ⟨out, err⟩
        cases err with
        | none => simp [handleControlRequest, h1, h2, hreg, hfn]
        | some e => simp [handleControlRequest, h1, h2, hreg, hfn]
    · simp [handleControlRequest, h1, h2]

lemma readLoop_events_eq (opts : Options) (reg : hookRegistry) (lines : List ChildLine) :
    (readLoop opts reg lines).events = eventsUpToFirstResult (specDomainEvents lines) := by
  induction lines with
  | nil => rfl
  | cons l ls ih =>
    cases l with
    | empty => simpa [readLoop, specDomainEvents, domainParse] using ih
    | nonJSON raw => simpa [readLoop, specDomainEvents, domainParse] using ih
    | json m =>
      by_cases h1 : m.type = "control_request"
      · simpa [readLoop, specDomainEvents, domainParse, h1] using ih
      · by_cases h2 : m.type = "control_response"
        · simpa [readLoop, specDomainEvents, domainParse, h1, h2] using ih
        · have hd : domainParse (ChildLine.json m) = some (parseLine m) := by
            simp [domainParse, h1, h2]
          by_cases h3 : m.type = TypeResult
          · simp only [readLoop]
            rw [if_neg h1, if_neg h2]
            have hres : (parseLine m).type = TypeResult := by rw [parseLine_type, h3]
            rw [if_pos hres]
            simp [specDomainEvents, hd, eventsUpToFirstResult, hres]
          · simp only [readLoop]
            rw [if_neg h1, if_neg h2]
            have hres : ¬(parseLine m).type = TypeResult := by
              rw [parseLine_type]; exact h3
            rw [if_neg hres]
            simp [specDomainEvents, hd, eventsUpToFirstResult, hres, ih]

/-- exOpts is a concrete Options value with no permission handler. -/
def exOpts : Options := {}

/-- exReg is a concrete empty hook registry. -/
def exReg : hookRegistry := fun _ => none

/-- exReq is a concrete inbound control request with an unrecognized subtype. -/
def exReq : CtrlRequest := { request_id := "req-1", subtype := "set_model" }

/-- exMsgC1 is a concrete control_request line whose envelope parses. -/
def exMsgC1 : JsonMsg := { type := "control_request", controlRequest := some exReq }

/-- exResultMsg is a concrete result-typed line. -/
def exResultMsg : JsonMsg := { type := "result", result := some {} }

/-- exAssistantMsg is a concrete assistant-typed line. -/
def exAssistantMsg : JsonMsg := { type := "assistant" }

/-- exLinesC2 is a child transcript that keeps emitting after its result
line. -/
def exLinesC2 : List ChildLine :=
  [ChildLine.json exResultMsg, ChildLine.json exAssistantMsg]

/-- C1: for every line whose envelope parses as a control_request (any
subtype, including unrecognized ones), the dispatcher writes exactly one
control_response echoing the request's identifier; the write happens while
servicing that line, before any output of later lines (the loop's writes for
the line are a strict prelude of the remaining writes), and nothing is
forwarded to the consumer event channel. -/
theorem c1_control_request_one_reply (opts : Options) (reg : hookRegistry)
    (m : JsonMsg) (req : CtrlRequest) (ls : List ChildLine)
    (hty : m.type = "control_request") (hreq : m.controlRequest = some req) :
    (handleControlRequest m.controlRequest opts reg).length = 1 ∧
    (∀ w ∈ handleControlRequest m.controlRequest opts reg,
       w.request_id = req.request_id) ∧
    (readLoop opts reg (ChildLine.json m :: ls)).writes
      = handleControlRequest m.controlRequest opts reg
        ++ (readLoop opts reg ls).writes ∧
    (readLoop opts reg (ChildLine.json m :: ls)).events
      = (readLoop opts reg ls).events := by
  obtain ⟨hlen, hids⟩ := handleControlRequest_shape req opts reg
  rw [hreq]
  exact ⟨hlen, hids, by simp [readLoop, hty, hreq], by simp [readLoop, hty, hreq]⟩

/-- Witness for C1 at a concrete unrecognized-subtype request. -/
theorem c1_witness :
    exMsgC1.type = "control_request" ∧ exMsgC1.controlRequest = some exReq ∧
    ((handleControlRequest exMsgC1.controlRequest exOpts exReg).length = 1 ∧
     (∀ w ∈ handleControlRequest exMsgC1.controlRequest exOpts exReg,
        w.request_id = exReq.request_id) ∧
     (readLoop exOpts exReg (ChildLine.json exMsgC1 :: [])).writes
       = handleControlRequest exMsgC1.controlRequest exOpts exReg
         ++ (readLoop exOpts exReg []).writes ∧
     (readLoop exOpts exReg (ChildLine.json exMsgC1 :: [])).events
       = (readLoop exOpts exReg []).events) :=
  ⟨rfl, rfl, c1_control_request_one_reply exOpts exReg exMsgC1 exReq [] rfl rfl⟩

/-- Counterexample to C2 as stated: after the first result-typed event the
loop stops reading, so a domain-event line emitted after the result line is
never delivered, and the delivered stream is not the full domain-event
subsequence of the transcript. -/
theorem c2_counterexample :
    streamEvents exOpts exReg exLinesC2 {} ≠ specDomainEvents exLinesC2 := by
  decide

/-- C2 (amended): with a clean exit and no read error, the delivered stream
is exactly the domain-event subsequence of the transcript truncated right
after its first result-typed event; control lines never appear and non-JSON
lines contribute zero events without ending the session. -/
theorem c2_amended_delivered (opts : Options) (reg : hookRegistry)
    (lines : List ChildLine) (stderrBuf : String) :
    streamEvents opts reg lines { stderrBuf := stderrBuf }
      = eventsUpToFirstResult (specDomainEvents lines) := by
  simp [streamEvents, readLoop_events_eq]

/-- effectivePermissionResult names the let-bound result value of the
can_use_tool branch of handleControlRequest: the handler's verdict when one
is registered, the default allow verdict otherwise. -/
def effectivePermissionResult (opts : Options) (req : CtrlRequest) : PermissionResult :=
  match opts.permissionHandler with
  | none => { behavior := "allow" }
  | some handler =>
    handler req.tool_name req.input
      { suggestions := req.permission_suggestions,
        blockedPath := req.blocked_path,
        decisionReason := req.decision_reason,
        toolUseID := req.tool_use_id,
        agentID := req.agent_id }

lemma canUseTool_payload (req : CtrlRequest) (opts : Options) (reg : hookRegistry)
    (hsub : req.subtype = "can_use_tool") :
    canUseToolPayload (handleControlRequest (some req) opts reg)
      = some
        { allowed := (effectivePermissionResult opts req).behavior != "deny",
          toolUseID := req.tool_use_id,
          updatedInput := (effectivePermissionResult opts req).updatedInput,
          updatedPermissions :=
            if 0 < (effectivePermissionResult opts req).updatedPermissions.length then
              some (effectivePermissionResult opts req).updatedPermissions
            else none,
          message :=
            if (effectivePermissionResult opts req).message = "" then none
            else some (effectivePermissionResult opts req).message,
          interrupt :=
            if (effectivePermissionResult opts req).interrupt then some true
            else none } := by
  simp [handleControlRequest, hsub, canUseToolPayload, effectivePermissionResult]

/-- C3: for a can_use_tool control request, a missing permission handler
yields an allow response with no replacement input; a registered handler's
deny verdict with a message yields allowed false carrying that message;
replacement input, non-empty permission updates and a set interrupt flag are
copied into the response verbatim; and the consumer event stream receives
nothing from the exchange. -/
theorem c3_can_use_tool_response (opts : Options) (reg : hookRegistry)
    (m : JsonMsg) (req : CtrlRequest) (ls : List ChildLine)
    (hty : m.type = "control_request") (hreq : m.controlRequest = some req)
    (hsub : req.subtype = "can_use_tool") :
    (opts.permissionHandler = none →
       canUseToolPayload (handleControlRequest m.controlRequest opts reg)
         = some { allowed := true, toolUseID := req.tool_use_id }) ∧
    (∀ handler, opts.permissionHandler = some handler →
       ∀ result,
         handler req.tool_name req.input
             { suggestions := req.permission_suggestions,
               blockedPath := req.blocked_path,
               decisionReason := req.decision_reason,
               toolUseID := req.tool_use_id,
               agentID := req.agent_id } = result →
         ∃ r, canUseToolPayload (handleControlRequest m.controlRequest opts reg) = some r ∧
           (result.behavior = "deny" → result.message ≠ "" →
              r.allowed = false ∧ r.message = some result.message) ∧
           r.updatedInput = result.updatedInput ∧
           (result.updatedPermissions ≠ [] →
              r.updatedPermissions = some result.updatedPermissions) ∧
           (result.interrupt = true → r.interrupt = some true)) ∧
    (readLoop opts reg (ChildLine.json m :: ls)).events
      = (readLoop opts reg ls).events := by
  refine ⟨?_, ?_, by simp [readLoop, hty]⟩
  · intro hnone
    rw [hreq, canUseTool_payload req opts reg hsub]
    simp [effectivePermissionResult, hnone]
  · intro handler hh result hres
    rw [hreq, canUseTool_payload req opts reg hsub]
    refine ⟨_, rfl, ?_, ?_, ?_, ?_⟩
    · intro hdeny hmsg
      exact ⟨by simp [effectivePermissionResult, hh, hres, hdeny],
             by simp [effectivePermissionResult, hh, hres, hmsg]⟩
    · simp [effectivePermissionResult, hh, hres]
    · intro hne
      simp [effectivePermissionResult, hh, hres, List.length_pos.mpr hne]
    · intro hint
      simp [effectivePermissionResult, hh, hres, hint]

/-- exPermUpdate is a concrete permission update. -/
def exPermUpdate : PermissionUpdate := { type := "addRules" }

/-- exDenyHandler is a concrete permission handler that denies with a message,
an interrupt flag and a permission update. -/
def exDenyHandler : PermissionHandler := fun _ _ _ =>
  { behavior := "deny", message := "blocked", interrupt := true,
    updatedPermissions := [exPermUpdate] }

/-- exOptsDeny registers exDenyHandler. -/
def exOptsDeny : Options := { permissionHandler := some exDenyHandler }

/-- exReqCanUse is a concrete can_use_tool control request. -/
def exReqCanUse : CtrlRequest :=
  { request_id := "req-2", subtype := "can_use_tool",
    tool_name := "X", tool_use_id := "tu-1" }

/-- exMsgCanUse is a concrete can_use_tool control_request line. -/
def exMsgCanUse : JsonMsg :=
  { type := "control_request", controlRequest := some exReqCanUse }

/-- Witness for C3 at a concrete denying handler, together with the fully
evaluated response. -/
theorem c3_witness :
    (exOptsDeny.permissionHandler = some exDenyHandler →
       ∀ result,
         exDenyHandler exReqCanUse.tool_name exReqCanUse.input
             { suggestions := exReqCanUse.permission_suggestions,
               blockedPath := exReqCanUse.blocked_path,
               decisionReason := exReqCanUse.decision_reason,
               toolUseID := exReqCanUse.tool_use_id,
               agentID := exReqCanUse.agent_id } = result →
         ∃ r, canUseToolPayload (handleControlRequest exMsgCanUse.controlRequest exOptsDeny exReg)
                = some r ∧
           (result.behavior = "deny" → result.message ≠ "" →
              r.allowed = false ∧ r.message = some result.message) ∧
           r.updatedInput = result.updatedInput ∧
           (result.updatedPermissions ≠ [] →
              r.updatedPermissions = some result.updatedPermissions) ∧
           (result.interrupt = true → r.interrupt = some true)) ∧
    (exOpts.permissionHandler = none →
       canUseToolPayload (handleControlRequest exMsgCanUse.controlRequest exOpts exReg)
         = some { allowed := true, toolUseID := exReqCanUse.tool_use_id }) ∧
    canUseToolPayload (handleControlRequest exMsgCanUse.controlRequest exOptsDeny exReg)
      = some { allowed := false, toolUseID := "tu-1",
               updatedPermissions := some [exPermUpdate],
               message := some "blocked", interrupt := some true } := by
  refine ⟨?_, ?_, by decide⟩
  · intro _ result hres
    exact (c3_can_use_tool_response exOptsDeny exReg exMsgCanUse exReqCanUse [] rfl rfl
      rfl).2.1 exDenyHandler rfl result hres
  · exact (c3_can_use_tool_response exOpts exReg exMsgCanUse exReqCanUse [] rfl rfl rfl).1

/-- behaviorHandler is a permission handler returning a fixed behavior with
every other field at its zero value. -/
def behaviorHandler (b : String) : PermissionHandler := fun _ _ _ => { behavior := b }

/-- optsWith registers behaviorHandler b. -/
def optsWith (b : String) : Options := { permissionHandler := some (behaviorHandler b) }

/-- C10: in the can_use_tool response the allowed field is true exactly when
the handler's returned Behavior differs from the literal string "deny" (the
zero value and any other string therefore allow), and the no-handler default
also allows. -/
theorem c10_allowed_iff_not_deny (opts : Options) (reg : hookRegistry)
    (req : CtrlRequest) (hsub : req.subtype = "can_use_tool") :
    (∀ handler result, opts.permissionHandler = some handler →
       handler req.tool_name req.input
           { suggestions := req.permission_suggestions,
             blockedPath := req.blocked_path,
             decisionReason := req.decision_reason,
             toolUseID := req.tool_use_id,
             agentID := req.agent_id } = result →
       ∃ r, canUseToolPayload (handleControlRequest (some req) opts reg) = some r ∧
         (r.allowed = true ↔ result.behavior ≠ "deny")) ∧
    (opts.permissionHandler = none →
       ∃ r, canUseToolPayload (handleControlRequest (some req) opts reg) = some r ∧
         r.allowed = true) := by
  constructor
  · intro handler result hh hres
    refine ⟨_, canUseTool_payload req opts reg hsub, ?_⟩
    simp [effectivePermissionResult, hh, hres, bne_iff_ne]
  · intro hnone
    refine ⟨_, canUseTool_payload req opts reg hsub, ?_⟩
    simp [effectivePermissionResult, hnone]

/-- Witness for C10 at the behaviors "", "allow", "ask" and "deny", and at the
no-handler default. -/
theorem c10_witness :
    (∃ r, canUseToolPayload (handleControlRequest (some exReqCanUse) (optsWith "") exReg)
        = some r ∧ (r.allowed = true ↔ ("" : String) ≠ "deny")) ∧
    (∃ r, canUseToolPayload (handleControlRequest (some exReqCanUse) (optsWith "allow") exReg)
        = some r ∧ (r.allowed = true ↔ ("allow" : String) ≠ "deny")) ∧
    (∃ r, canUseToolPayload (handleControlRequest (some exReqCanUse) (optsWith "ask") exReg)
        = some r ∧ (r.allowed = true ↔ ("ask" : String) ≠ "deny")) ∧
    (∃ r, canUseToolPayload (handleControlRequest (some exReqCanUse) (optsWith "deny") exReg)
        = some r ∧ (r.allowed = true ↔ ("deny" : String) ≠ "deny")) ∧
    (∃ r, canUseToolPayload (handleControlRequest (some exReqCanUse) exOpts exReg)
        = some r ∧ r.allowed = true) :=
  ⟨(c10_allowed_iff_not_deny (optsWith "") exReg exReqCanUse rfl).1
      (behaviorHandler "") { behavior := "" } rfl rfl,
   (c10_allowed_iff_not_deny (optsWith "allow") exReg exReqCanUse rfl).1
      (behaviorHandler "allow") { behavior := "allow" } rfl rfl,
   (c10_allowed_iff_not_deny (optsWith "ask") exReg exReqCanUse rfl).1
      (behaviorHandler "ask") { behavior := "ask" } rfl rfl,
   (c10_allowed_iff_not_deny (optsWith "deny") exReg exReqCanUse rfl).1
      (behaviorHandler "deny") { behavior := "deny" } rfl rfl,
   (c10_allowed_iff_not_deny exOpts exReg exReqCanUse rfl).2 rfl⟩

/-- C4: with no read error, when the process exits abnormally and the loop
never saw a result event, the channel carries the loop's events followed by
exactly one synthesized system error event whose message is the trimmed
stderr, or the exit error text when stderr trims to empty, and then closes;
when a result event was delivered, nothing is synthesized. -/
theorem c4_abnormal_exit_synthesis (opts : Options) (reg : hookRegistry)
    (lines : List ChildLine) (exitErrText stderrBuf : String) :
    ((readLoop opts reg lines).gotResult = false →
       streamEvents opts reg lines { exitErr := some exitErrText, stderrBuf := stderrBuf }
         = (readLoop opts reg lines).events
           ++ [errorEvent (if stderrBuf.trim = "" then exitErrText else stderrBuf.trim)]) ∧
    ((readLoop opts reg lines).gotResult = true →
       streamEvents opts reg lines { exitErr := some exitErrText, stderrBuf := stderrBuf }
         = (readLoop opts reg lines).events) ∧
    (∀ msg, (errorEvent msg).type = TypeSystem ∧
       (errorEvent msg).system = some { subtype := "error", message := msg }) := by
  refine ⟨?_, ?_, fun msg => ⟨rfl, rfl⟩⟩
  · intro h
    simp [streamEvents, h]
  · intro h
    simp [streamEvents, h]

/-- Witness for C4: an abnormal exit with stderr "bad flag" and no prior
result yields exactly the one synthesized error event. -/
theorem c4_witness :
    (readLoop exOpts exReg []).gotResult = false ∧
    streamEvents exOpts exReg []
        { exitErr := some "exit status 1", stderrBuf := "bad flag\n" }
      = (readLoop exOpts exReg []).events
        ++ [errorEvent (if ("bad flag\n" : String).trim = "" then "exit status 1"
                        else ("bad flag\n" : String).trim)] :=
  ⟨rfl, (c4_abnormal_exit_synthesis exOpts exReg [] "exit status 1" "bad flag\n").1 rfl⟩

/-- C5: the interrupt trigger's guarded body runs at most once over any
number of calls; the shutdown goroutine sends SIGTERM at most once in every
run; when reader completion wins the first select no action at all is taken;
otherwise the routine is, in order, close stdin, SIGTERM, and SIGKILL exactly
when the 5-second timer beats process exit. -/
theorem c5_shutdown_idempotent_sequence :
    (∀ calls, interruptOnceRuns calls ≤ 1) ∧
    (∀ f s, (shutdownGoroutine f s).count ShutdownAction.sigterm ≤ 1) ∧
    (∀ s, shutdownGoroutine FirstSelect.procDone s = []) ∧
    (∀ f s, f ≠ FirstSelect.procDone →
       shutdownGoroutine f s
         = ShutdownAction.closeStdin :: ShutdownAction.sigterm ::
             (if s = SecondSelect.timeoutAfter5s then [ShutdownAction.sigkill] else [])) ∧
    (∀ f s, ShutdownAction.sigkill ∈ shutdownGoroutine f s ↔
       (f ≠ FirstSelect.procDone ∧ s = SecondSelect.timeoutAfter5s)) := by
  refine ⟨?_, ?_, ?_, ?_, ?_⟩
  · intro calls
    exact Nat.min_le_right calls 1
  · intro f s
    cases f <;> cases s <;> decide
  · intro s
    cases s <;> rfl
  · intro f s hf
    cases f <;> cases s <;> first | exact absurd rfl hf | rfl
  · intro f s
    cases f <;> cases s <;> decide

/-- Witness for C5 at concrete select outcomes. -/
theorem c5_witness :
    interruptOnceRuns 3 ≤ 1 ∧
    shutdownGoroutine FirstSelect.procDone SecondSelect.timeoutAfter5s = [] ∧
    FirstSelect.interruptCh ≠ FirstSelect.procDone ∧
    shutdownGoroutine FirstSelect.interruptCh SecondSelect.timeoutAfter5s
      = ShutdownAction.closeStdin :: ShutdownAction.sigterm ::
          (if SecondSelect.timeoutAfter5s = SecondSelect.timeoutAfter5s then
             [ShutdownAction.sigkill]
           else []) ∧
    (ShutdownAction.sigkill ∈ shutdownGoroutine FirstSelect.ctxDone SecondSelect.procDone ↔
       (FirstSelect.ctxDone ≠ FirstSelect.procDone ∧
        SecondSelect.procDone = SecondSelect.timeoutAfter5s)) :=
  ⟨c5_shutdown_idempotent_sequence.1 3,
   c5_shutdown_idempotent_sequence.2.2.1 SecondSelect.timeoutAfter5s,
   by decide,
   c5_shutdown_idempotent_sequence.2.2.2.1 FirstSelect.interruptCh
     SecondSelect.timeoutAfter5s (by decide),
   c5_shutdown_idempotent_sequence.2.2.2.2 FirstSelect.ctxDone SecondSelect.procDone⟩

/-- C6: a matching control_response removes the pending entry and delivers
the outcome without the dispatcher blocking — the select either buffers one
value into the empty slot or drops the value when the slot is full — leaving
every other entry untouched; context cancellation makes the blocked caller
return an error and remove its own entry; and a response whose identifier has
no entry is discarded with the table fully unchanged. -/
theorem c6_correlation_lifecycle :
    (∀ e p slot, e.request_id ≠ "" → p e.request_id = some slot →
       ((routeControlResponse (some e) p).1 e.request_id = none ∧
        (∀ k, k ≠ e.request_id → (routeControlResponse (some e) p).1 k = p k) ∧
        (slot = none →
           (routeControlResponse (some e) p).2
             = RouteEffect.sent e.request_id
                 { success := e.subtype != "error", error := e.error }) ∧
        (∀ v, slot = some v →
           (routeControlResponse (some e) p).2
             = RouteEffect.droppedFull e.request_id))) ∧
    (∀ st p reqID ctxErr,
       (sendControlRequest st p reqID none (WaitResult.ctxDone ctxErr)).2
         = Except.error ctxErr ∧
       (sendControlRequest st p reqID none (WaitResult.ctxDone ctxErr)).1 reqID
         = none) ∧
    (∀ e p, e.request_id ≠ "" → p e.request_id = none →
       routeControlResponse (some e) p = (p, RouteEffect.discarded)) := by
  refine ⟨?_, ?_, ?_⟩
  · intro e p slot hne hentry
    cases slot with
    | none =>
      refine ⟨?_, ?_, fun _ => ?_, ?_⟩
      · simp [routeControlResponse, hne, hentry, removePending]
      · intro k hk
        simp [routeControlResponse, hne, hentry, removePending, hk]
      · simp [routeControlResponse, hne, hentry]
      · intro v hv
        exact absurd hv (by simp)
    | some v0 =>
      refine ⟨?_, ?_, fun h => by simp at h, fun v _ => ?_⟩
      · simp [routeControlResponse, hne, hentry, removePending]
      · intro k hk
        simp [routeControlResponse, hne, hentry, removePending, hk]
      · simp [routeControlResponse, hne, hentry]
  · intro st p reqID ctxErr
    exact ⟨rfl, by simp [sendControlRequest, removePending]⟩
  · intro e p hne hentry
    simp [routeControlResponse, hne, hentry]

/-- exRespEnv is a concrete successful control_response envelope for id a. -/
def exRespEnv : CtrlRespEnv := { request_id := "a", subtype := "success" }

/-- exPending is a table with one empty-slot entry under id a. -/
def exPending : Pending := fun k => if k = "a" then some none else none

/-- exPendingEmptyTable is a table with no entries. -/
def exPendingEmptyTable : Pending := fun _ => none

/-- Witness for C6 at a concrete table, response and cancellation. -/
theorem c6_witness :
    (((routeControlResponse (some exRespEnv) exPending).1 "a" = none ∧
      (∀ k, k ≠ "a" → (routeControlResponse (some exRespEnv) exPending).1 k
         = exPending k) ∧
      ((none : ReplySlot) = none →
         (routeControlResponse (some exRespEnv) exPending).2
           = RouteEffect.sent "a" { success := ("success" : String) != "error",
                                    error := "" }) ∧
      (∀ v, (none : ReplySlot) = some v →
         (routeControlResponse (some exRespEnv) exPending).2
           = RouteEffect.droppedFull "a"))) ∧
    ((sendControlRequest "set_model" exPendingEmptyTable "b" none
        (WaitResult.ctxDone "context canceled")).2
       = Except.error "context canceled" ∧
     (sendControlRequest "set_model" exPendingEmptyTable "b" none
        (WaitResult.ctxDone "context canceled")).1 "b" = none) ∧
    routeControlResponse (some exRespEnv) exPendingEmptyTable
      = (exPendingEmptyTable, RouteEffect.discarded) :=
  ⟨c6_correlation_lifecycle.1 exRespEnv exPending none (by decide) rfl,
   c6_correlation_lifecycle.2.1 "set_model" exPendingEmptyTable "b" "context canceled",
   c6_correlation_lifecycle.2.2 exRespEnv exPendingEmptyTable (by decide) rfl⟩

/-- pC7 is a table already holding a buffered reply slot under id a. -/
def pC7 : Pending :=
  fun k => if k = "a" then some (some { success := true, error := "x" }) else none

/-- Counterexample to C7 as stated: registering under an identifier that is
already present does not fail — the assignment succeeds and displaces the
existing waiter's reply slot. -/
theorem c7_counterexample :
    registerPending pC7 "a" none "a" = some none ∧
    pC7 "a" = some (some { success := true, error := "x" }) ∧
    registerPending pC7 "a" none "a" ≠ pC7 "a" := by
  exact ⟨rfl, rfl, by decide⟩

/-- C7 (amended): registration is an unconditional insert: it always succeeds,
maps the identifier to the new reply slot — displacing any existing entry
under that identifier — and leaves every other identifier's entry unchanged;
at most one entry per identifier relies on identifiers being freshly
generated random UUIDs, not on a failing register. -/
theorem c7_amended_register (p : Pending) (id : String) (slot : ReplySlot) :
    registerPending p id slot id = some slot ∧
    ∀ k, k ≠ id → registerPending p id slot k = p k := by
  constructor
  · simp [registerPending]
  · intro k hk
    simp [registerPending, hk]

/-- Witness for the amended C7 at a concrete table. -/
theorem c7_witness :
    registerPending pC7 "a" none "a" = some none ∧
    ("b" : String) ≠ "a" ∧ registerPending pC7 "a" none "b" = pC7 "b" :=
  ⟨(c7_amended_register pC7 "a" none).1, by decide,
   (c7_amended_register pC7 "a" none).2 "b" (by decide)⟩

/-- C8: for a hook_callback control request, a registered callback that fails
produces one control_response of subtype error carrying the error's message;
a callback that succeeds produces a success response carrying its output
exactly when the output is non-nil; an unregistered callback identifier
produces a plain success response; and the session continues — the loop keeps
processing and the consumer stream receives nothing from the exchange. -/
theorem c8_hook_callback (opts : Options) (reg : hookRegistry)
    (m : JsonMsg) (req : CtrlRequest) (ls : List ChildLine)
    (hty : m.type = "control_request") (hreq : m.controlRequest = some req)
    (hsub : req.subtype = "hook_callback") :
    (∀ fn out errMsg, reg req.callback_id = some fn →
       fn req.hook_event req.input req.tool_use_id = (out, some errMsg) →
       handleControlRequest m.controlRequest opts reg
         = [{ subtype := "error", request_id := req.request_id,
              error := some errMsg }]) ∧
    (∀ fn out, reg req.callback_id = some fn →
       fn req.hook_event req.input req.tool_use_id = (out, none) →
       handleControlRequest m.controlRequest opts reg
         = [{ subtype := "success", request_id := req.request_id,
              response := out.map RespPayload.hookOutput }]) ∧
    (reg req.callback_id = none →
       handleControlRequest m.controlRequest opts reg
         = [{ subtype := "success", request_id := req.request_id }]) ∧
    (readLoop opts reg (ChildLine.json m :: ls)).events
      = (readLoop opts reg ls).events ∧
    (readLoop opts reg (ChildLine.json m :: ls)).writes
      = handleControlRequest m.controlRequest opts reg
        ++ (readLoop opts reg ls).writes := by
  rw [hreq]
  refine ⟨?_, ?_, ?_, by simp [readLoop, hty, hreq], by simp [readLoop, hty, hreq]⟩
  · intro fn out errMsg hfn hcall
    simp [handleControlRequest, hsub, hfn, hcall]
  · intro fn out hfn hcall
    simp [handleControlRequest, hsub, hfn, hcall]
  · intro hnone
    simp [handleControlRequest, hsub, hnone]

/-- exHookOut is a concrete hook output. -/
def exHookOut : HookOutput := { decision := "approve" }

/-- exHookOK is a hook callback that succeeds with output. -/
def exHookOK : HookFunc := fun _ _ _ => (some exHookOut, none)

/-- exHookErr is a hook callback that fails. -/
def exHookErr : HookFunc := fun _ _ _ => (none, some "boom")

/-- exRegHooks registers exHookOK and exHookErr. -/
def exRegHooks : hookRegistry := fun id =>
  if id = "cb-ok" then some exHookOK
  else if id = "cb-err" then some exHookErr
  else none

/-- exReqHookOK is a hook_callback request hitting exHookOK. -/
def exReqHookOK : CtrlRequest :=
  { request_id := "req-3", subtype := "hook_callback", callback_id := "cb-ok" }

/-- exReqHookErr is a hook_callback request hitting exHookErr. -/
def exReqHookErr : CtrlRequest :=
  { request_id := "req-4", subtype := "hook_callback", callback_id := "cb-err" }

/-- exReqHookMissing is a hook_callback request with no registered callback. -/
def exReqHookMissing : CtrlRequest :=
  { request_id := "req-5", subtype := "hook_callback", callback_id := "cb-none" }

/-- exMsgHookOK wraps exReqHookOK in a control_request line. -/
def exMsgHookOK : JsonMsg :=
  { type := "control_request", controlRequest := some exReqHookOK }

/-- exMsgHookErr wraps exReqHookErr in a control_request line. -/
def exMsgHookErr : JsonMsg :=
  { type := "control_request", controlRequest := some exReqHookErr }

/-- exMsgHookMissing wraps exReqHookMissing in a control_request line. -/
def exMsgHookMissing : JsonMsg :=
  { type := "control_request", controlRequest := some exReqHookMissing }

/-- Witness for C8 on the three callback situations. -/
theorem c8_witness :
    handleControlRequest exMsgHookErr.controlRequest exOpts exRegHooks
      = [{ subtype := "error", request_id := "req-4", error := some "boom" }] ∧
    handleControlRequest exMsgHookOK.controlRequest exOpts exRegHooks
      = [{ subtype := "success", request_id := "req-3",
           response := (some exHookOut).map RespPayload.hookOutput }] ∧
    handleControlRequest exMsgHookMissing.controlRequest exOpts exRegHooks
      = [{ subtype := "success", request_id := "req-5" }] :=
  ⟨(c8_hook_callback exOpts exRegHooks exMsgHookErr exReqHookErr [] rfl rfl rfl).1
      exHookErr none "boom" rfl rfl,
   (c8_hook_callback exOpts exRegHooks exMsgHookOK exReqHookOK [] rfl rfl rfl).2.1
      exHookOK (some exHookOut) rfl rfl,
   (c8_hook_callback exOpts exRegHooks exMsgHookMissing exReqHookMissing [] rfl rfl
      rfl).2.2.1 rfl⟩

/-- C9: the single-turn drain returns the terminal result event's payload
when the first result-typed event reports success (preceding events being
ordinary, non-terminal traffic), and returns a constructed error — never a
payload — when the channel closes without any result-typed event. -/
theorem c9_run_drain :
    (∀ pre e rest r,
       (∀ x ∈ pre, x.type ≠ TypeResult ∧
          ∀ sm, x.system = some sm → sm.subtype ≠ "error") →
       e.type = TypeResult → e.result = some r → r.is_error = false →
       Run (pre ++ e :: rest) = RunOutcome.ok r) ∧
    (∀ events, (∀ x ∈ events, x.type ≠ TypeResult) →
       ∃ msg, Run events = RunOutcome.err msg) := by
  constructor
  · intro pre e rest r hpre hty hres herr
    revert hpre
    induction pre with
    | nil =>
      intro _
      simp [Run, hty, hres, herr]
    | cons x xs ih =>
      intro hpre
      obtain ⟨hxty, hxsys⟩ := hpre x (List.mem_cons_self x xs)
      have htail := ih (fun y hy => hpre y (List.mem_cons_of_mem x hy))
      rw [List.cons_append]
      by_cases hsys : x.type = TypeSystem
      · cases hx : x.system with
        | none => simpa [Run, hxty, hsys, hx] using htail
        | some sm =>
          have hns : sm.subtype ≠ "error" := hxsys sm hx
          simpa [Run, hxty, hsys, hx, hns] using htail
      · simpa [Run, hxty, hsys] using htail
  · intro events
    induction events with
    | nil =>
      intro _
      exact ⟨"claude: agent finished without a result message", rfl⟩
    | cons x xs ih =>
      intro hall
      have hxty := hall x (List.mem_cons_self x xs)
      obtain ⟨msg, hmsg⟩ := ih (fun y hy => hall y (List.mem_cons_of_mem x hy))
      by_cases hsys : x.type = TypeSystem
      · cases hx : x.system with
        | none => exact ⟨msg, by simpa [Run, hxty, hsys, hx] using hmsg⟩
        | some sm =>
          by_cases herrsub : sm.subtype = "error"
          · exact ⟨"claude: " ++ sm.message,
              by simp [Run, hxty, hsys, hx, herrsub, TypeSystem, TypeResult]⟩
          · exact ⟨msg, by simpa [Run, hxty, hsys, hx, herrsub] using hmsg⟩
      · exact ⟨msg, by simpa [Run, hxty, hsys] using hmsg⟩

/-- exResultOK is a concrete successful terminal result. -/
def exResultOK : Result := { subtype := "success" }

/-- exEvResult is a concrete successful result event. -/
def exEvResult : Event := { type := "result", result := some exResultOK }

/-- exEvAssistant is a concrete assistant event. -/
def exEvAssistant : Event := { type := "assistant" }

/-- Witness for C9 on a one-assistant-then-result channel and on a channel
closing without a result. -/
theorem c9_witness :
    Run ([exEvAssistant] ++ exEvResult :: []) = RunOutcome.ok exResultOK ∧
    (∃ msg, Run [exEvAssistant] = RunOutcome.err msg) :=
  ⟨c9_run_drain.1 [exEvAssistant] exEvResult [] exResultOK
      (by
        intro x hx
        rw [List.mem_singleton] at hx
        subst hx
        refine ⟨by decide, ?_⟩
        intro sm hsm
        exact absurd hsm (by simp [exEvAssistant]))
      rfl rfl rfl,
   c9_run_drain.2 [exEvAssistant]
      (by
        intro x hx
        rw [List.mem_singleton] at hx
        subst hx
        decide)⟩
